import Mathlib

/-!
# post-graphql: resolvers, error formatting and the upload path of `server.js`

A shallow embedding of `src/server.js`.  Every resolver is a function of its
arguments, the request context and a `World` holding the results of the
collaborators it calls (the Mongoose models, bcryptjs, validator, the file
system, the clock).  A resolver's value is a `Run`: the ordered list of calls it
made to collaborators together with the way it ended (returned, threw, or left a
promise unsettled).
-/

namespace PostGraphql

/-! ## JavaScript values -/

/-- Primitive JavaScript values, as far as the program tests them for truthiness
(`error.code`, a falsy `check`). Numbers are integers; `NaN` is not represented. -/
inductive JsVal where
  | undefined
  | null
  | bool (b : Bool)
  | num (n : Int)
  | str (s : String)
  deriving DecidableEq, Repr

/-- JavaScript `ToBoolean` on primitives. -/
def JsVal.truthy : JsVal → Bool
  | .undefined => false
  | .null => false
  | .bool b => b
  | .num n => n != 0
  | .str s => s != ""

/-- The operator `a || b` on primitives. -/
def JsVal.or (a b : JsVal) : JsVal :=
  if a.truthy then a else b

/-- One entry of the `data` array of a validation error: `{ message }`. -/
structure FieldMessage where
  message : String
  deriving DecidableEq, Repr

/-- A thrown JavaScript error object with the properties the program sets or reads. -/
structure JsError where
  name : String
  message : String
  code : JsVal
  data : Option (List FieldMessage)
  deriving DecidableEq, Repr

/-- The value of `new Error(message)`: no `code`, no `data`. -/
def newError (message : String) : JsError :=
  { name := "Error", message := message, code := .undefined, data := none }

/-- The error raised when an identifier has no binding. -/
def referenceError (ident : String) : JsError :=
  { name := "ReferenceError", message := ident ++ " is not defined",
    code := .undefined, data := none }

deriving instance DecidableEq for Except

/-- How an `async` function ends. -/
inductive Outcome (α : Type) where
  | returned (value : α)
  | threw (error : JsError)
  | pending
  deriving DecidableEq, Repr

/-! ## Documents -/

inductive Gender where
  | Male
  | Female
  deriving DecidableEq, Repr

/-- A `User` document (the fields of `UserInput` plus the identifier the model assigns). -/
structure User where
  id : String
  fname : String
  lname : String
  age : Int
  gender : Option Gender
  email : String
  password : String
  deriving DecidableEq, Repr

/-- The argument `input: UserInput!` of `createUser`. -/
structure UserInput where
  fname : String
  lname : String
  age : Int
  gender : Option Gender
  email : String
  password : String
  deriving DecidableEq, Repr

/-- The result of `User.paginate`. -/
structure Page where
  docs : List User
  total : Int
  limit : Int
  page : Int
  pages : Int
  deriving DecidableEq, Repr

/-- The `check` entry of the request context: a primitive (the falsy ones mean
"no claim") or the authenticated user's document. -/
inductive Check where
  | prim (v : JsVal)
  | doc (u : User)
  deriving DecidableEq, Repr

/-- Truthiness of `check`, the test of `if (!check)`. An object is always truthy. -/
def Check.truthy : Check → Bool
  | .prim v => v.truthy
  | .doc _ => true

/-- Property access `check.id` on a truthy `check`: the document's id, and
`undefined` on a primitive. -/
def Check.id : Check → JsVal
  | .prim _ => .undefined
  | .doc u => .str u.id

/-- The object handed to `Article.create`. -/
structure ArticleDoc where
  user : JsVal
  title : String
  body : String
  image : String
  deriving DecidableEq, Repr

/-- How the piped upload ends: the destination emits `finish`, emits `error`, or
emits neither. -/
inductive Transfer where
  | finish
  | error (e : JsError)
  | stalls
  deriving DecidableEq, Repr

/-- The resolved value of `args.image`: `{ createReadStream, filename }`. -/
structure Upload where
  filename : String
  transfer : Transfer
  deriving DecidableEq, Repr

/-- The value `saveImage` resolves with: `{ filePath }`. -/
structure UploadReference where
  filePath : String
  deriving DecidableEq, Repr

/-! ## Dates

`new Date()` is modelled by the local day number (days since 1970-01-01 in the
server's time zone); the getters follow the ECMAScript definitions of
`WeekDay`, `YearFromTime`, `MonthFromTime` and `DateFromTime`. -/

structure JsDate where
  localDay : Int
  deriving DecidableEq, Repr

/-- The civil date `(year, month index 0..11, day of month 1..31)` of a day number
in the proleptic Gregorian calendar. -/
def civilFromDays (days : Int) : Int × Int × Int :=
  let z := days + 719468
  let era := z / 146097
  let doe := z - era * 146097
  let yoe := (doe - doe / 1460 + doe / 36524 - doe / 146096) / 365
  let doy := doe - (365 * yoe + yoe / 4 - yoe / 100)
  let mp := (5 * doy + 2) / 153
  let d := doy - (153 * mp + 2) / 5 + 1
  let m := if mp < 10 then mp + 3 else mp - 9
  let y := yoe + era * 400 + (if m ≤ 2 then 1 else 0)
  (y, m - 1, d)

def JsDate.getFullYear (d : JsDate) : Int := (civilFromDays d.localDay).1

def JsDate.getMonth (d : JsDate) : Int := (civilFromDays d.localDay).2.1

def JsDate.getDate (d : JsDate) : Int := (civilFromDays d.localDay).2.2

/-- Day of the week, `0` for Sunday: 1970-01-01 was a Thursday. -/
def JsDate.getDay (d : JsDate) : Int := (d.localDay + 4) % 7

/-! ## The token codec of `model/users` -/

/-- Modelled from the spec: the Token of the data model (section 3), issued and
checked by `User.createToken` and `User.checkToken` of `model/users`, a file the
sources do not include. The token string is opaque, so the record stands for it. -/
structure Token where
  subject_id : String
  issued_at : Nat
  expires_at : Nat
  signature : String
  deriving DecidableEq, Repr

/-- Modelled from the spec: the result of verifying a token (`AuthClaim`, section 3). -/
inductive AuthClaim where
  | present (subject_id : String)
  | absent
  deriving DecidableEq, Repr

/-- Modelled from the spec: the payload the signature covers, all of
`subject_id, issued_at, expires_at` (section 4.2). -/
def Token.payload (subject_id : String) (issued_at expires_at : Nat) : String :=
  subject_id ++ "." ++ toString issued_at ++ "." ++ toString expires_at

/-- Modelled from the spec: `issue(subject_id, secret, ttl)` of the Token Codec
(section 4.2), at time `now` in seconds, signing with the keyed function `hmac`. -/
def TokenCodec.issue (hmac : String → String → String) (subject_id secret : String)
    (ttl now : Nat) : Token :=
  { subject_id := subject_id, issued_at := now, expires_at := now + ttl,
    signature := hmac secret (Token.payload subject_id now (now + ttl)) }

/-- Modelled from the spec: `verify(token_string, secret)` of the Token Codec
(section 4.2): the signature is recomputed over the whole payload and compared, and
a token is expired from `expires_at` on (section 8). -/
def TokenCodec.verify (hmac : String → String → String) (token : Token) (secret : String)
    (now : Nat) : AuthClaim :=
  if token.signature = hmac secret (Token.payload token.subject_id token.issued_at token.expires_at)
      ∧ now < token.expires_at then
    .present token.subject_id
  else
    .absent

/-- Modelled from the spec: the fixed time to live of one day, in seconds
(`expires_at = issued_at + fixed_ttl`, section 3). -/
def fixedTtl : Nat := 86400

/-- Modelled from the spec: the duration a time-to-live label of
`User.createToken` stands for. The spec fixes it at one day; both callers write
it `'1d'`. -/
def ttlSeconds ( _label : String) : Nat := fixedTtl

/-- The request as the Access Gate reads it: the bearer token of the credential
header, if there is one. -/
structure Request where
  authorization : Option Token
  deriving DecidableEq, Repr

/-! ## Collaborators and calls -/

/-- The stored result of `Article.create`. -/
structure Article where
  id : String
  user : JsVal
  title : String
  body : String
  image : String
  deriving DecidableEq, Repr

/-- The results of everything `server.js` calls but does not define. -/
structure World where
  /-- Result of `User.paginate` for a page and a limit -/
  paginate : Int → Int → Except JsError Page
  /-- Result of `User.findOne` for an email: a document or `null` -/
  findOne : String → Except JsError (Option User)
  /-- Identity store lookup by id, used by `User.checkToken` -/
  findById : String → Option User
  /-- The identifier Mongoose gives a document built by `new User(...)` -/
  newObjectId : String
  /-- Result of `Article.create(doc)` -/
  articleCreate : ArticleDoc → Except JsError Article
  /-- Value of `bcrypt.genSaltSync(rounds)` -/
  genSaltSync : Nat → String
  /-- Value of `bcrypt.hashSync(password, salt)` -/
  hashSync : String → String → String
  /-- Value of `bcrypt.compare(password, hash)` -/
  compare : String → String → Bool
  /-- Value of `validator.isEmail(str)` -/
  isEmail : String → Bool
  /-- The keyed signature function of the token codec -/
  hmac : String → String → String
  /-- The clock of the token codec, in seconds -/
  now : Nat
  /-- The value of `new Date()` -/
  today : JsDate
  /-- The value of `__dirname` -/
  dirname : String
  /-- Result of `mkdirp.sync(path.join(__dirname, rel))` -/
  mkdirpSync : String → String → Except JsError Unit

/-- A call to a collaborator, with its arguments. -/
inductive Call where
  | paginate (page limit : Int)
  | findOne (email : String)
  | compare (password hash : String)
  | genSaltSync (rounds : Nat)
  | hashSync (password salt : String)
  | isEmpty (str : String)
  | isEmail (str : String)
  | newUser (user : User)
  | save (user : User)
  | createToken (user : User) (secret ttl : String)
  | checkToken (req : Request) (secret : String)
  | awaitImage
  | createReadStream
  | newDate
  | mkdirpSync (dirname rel : String)
  | pipe (dirname rel : String)
  | articleCreate (doc : ArticleDoc)
  deriving DecidableEq, Repr

def Call.isPaginate : Call → Bool
  | .paginate _ _ => true
  | _ => false

def Call.isCreateToken : Call → Bool
  | .createToken _ _ _ => true
  | _ => false

def Call.isNewUser : Call → Bool
  | .newUser _ => true
  | _ => false

def Call.isSave : Call → Bool
  | .save _ => true
  | _ => false

def Call.isArticleCreate : Call → Bool
  | .articleCreate _ => true
  | _ => false

/-- Reading the upload: awaiting `args.image` or opening its stream. -/
def Call.readsUpload : Call → Bool
  | .awaitImage => true
  | .createReadStream => true
  | .pipe _ _ => true
  | _ => false

/-- The calls `saveImage` makes. -/
def Call.inSaveImage : Call → Bool
  | .newDate => true
  | .mkdirpSync _ _ => true
  | .pipe _ _ => true
  | _ => false

/-- A finished evaluation: the calls made, in order, and how it ended. -/
structure Run (α : Type) where
  trace : List Call
  result : Outcome α

/-- Modelled from the spec: `User.createToken(user, secret, ttl)` of `model/users`,
the Token Codec's `issue` for the user's id at the world's clock. -/
def createToken (w : World) (user : User) (secret ttl : String) : Token :=
  TokenCodec.issue w.hmac user.id secret (ttlSeconds ttl) w.now

/-- Modelled from the spec: `User.checkToken(req, secret)` of `model/users`, the
Access Gate's `authenticate` (section 4.3): no header, a token that does not
verify, or a subject that is no longer stored give a falsy claim. -/
def checkToken (w : World) (req : Request) (secret : String) : Check :=
  match req.authorization with
  | none => .prim .undefined
  | some token =>
    match TokenCodec.verify w.hmac token secret w.now with
    | .absent => .prim .undefined
    | .present subject_id =>
      match w.findById subject_id with
      | none => .prim .undefined
      | some user => .doc user

/-! ## The request context -/

/-- The object `context` builds for every request. -/
structure Context where
  check : Check
  secret_token : String
  deriving DecidableEq, Repr

/-- The option `context` of the server: one secret, written in the source, is
passed to `User.checkToken` and handed on to the resolvers. -/
def context (w : World) (req : Request) : Run Context :=
  let secret_token := "*#@dadDAdCA21!!/?qwd109)_=qd1^"
  let check := checkToken w req secret_token
  { trace := [.checkToken req secret_token],
    result := .returned { check := check, secret_token := secret_token } }

/-! ## `formatError` -/

/-- The error `formatError` receives: its message and the error a resolver threw,
if one did. -/
structure GraphQLError where
  message : String
  originalError : Option JsError
  deriving DecidableEq, Repr

/-- What `formatError` returns: the error itself, or `{ data, status, message }`. -/
inductive Formatted where
  | unchanged (err : GraphQLError)
  | response (data : Option (List FieldMessage)) (status : JsVal) (message : String)
  deriving DecidableEq, Repr

def formatError (err : GraphQLError) : Formatted :=
  match err.originalError with
  | none => .unchanged err
  | some originalError =>
    let data := originalError.data
    let code := originalError.code.or (.num 500)
    let message := if err.message != "" then err.message else "error"
    .response data code message

/-! ## Queries -/

/-- The arguments `page` and `limit` of `getAllUser`, both optional. -/
structure GetAllUserArgs where
  page : Option Int
  limit : Option Int
  deriving DecidableEq, Repr

/-- The expression `n || d` for an optional `Int` argument: the default replaces a
missing argument and `0`. -/
def orDefault (n : Option Int) (d : Int) : Int :=
  match n with
  | none => d
  | some v => if v != 0 then v else d

/-- The `Paginate` part of the value of `getAllUser`. -/
structure Paginate where
  total : Int
  limit : Int
  page : Int
  pages : Int
  deriving DecidableEq, Repr

/-- The value of `getAllUser`. -/
structure UserData where
  users : List User
  paginate : Paginate
  deriving DecidableEq, Repr

def getAllUser (w : World) (args : GetAllUserArgs) (ctx : Context) : Run UserData :=
  let page := orDefault args.page 1
  let limit := orDefault args.limit 10
  if !ctx.check.truthy then
    let error := newError "کاربر اعتبار لازم را ندارد"
    { trace := [], result := .threw error }
  else
    match w.paginate page limit with
    | .error e => { trace := [.paginate page limit], result := .threw e }
    | .ok users =>
      { trace := [.paginate page limit],
        result := .returned
          { users := users.docs,
            paginate :=
              { total := users.total, limit := users.limit, page := users.page,
                pages := users.pages } } }

/-- The arguments of `login`. -/
structure LoginArgs where
  email : String
  password : String
  deriving DecidableEq, Repr

/-- The value of `login` and of `createUser`: `{ token, user }`. -/
structure TokenResult where
  token : Token
  user : User
  deriving DecidableEq, Repr

def login (w : World) (args : LoginArgs) (ctx : Context) : Run TokenResult :=
  match w.findOne args.email with
  | .error e => { trace := [.findOne args.email], result := .threw e }
  | .ok none =>
    let error := { newError "اکانت موجود نمیباشد" with code := .num 401 }
    { trace := [.findOne args.email], result := .threw error }
  | .ok (some user) =>
    let isValid := w.compare args.password user.password
    if !isValid then
      let error := { newError "اکانت موجود نمیباشد" with code := .num 401 }
      { trace := [.findOne args.email, .compare args.password user.password],
        result := .threw error }
    else
      { trace := [.findOne args.email, .compare args.password user.password,
                  .createToken user ctx.secret_token "1d"],
        result := .returned
          { token := createToken w user ctx.secret_token "1d", user := user } }

/-! ## Mutations -/

/-- The check `validator.isEmpty(str)` with its default options: the string has
length zero. -/
def isEmpty (str : String) : Bool := str.length == 0

/-- The document `new User(fields)` builds: the fields given, under a fresh id. -/
def newUser (w : World) (fname lname : String) (age : Int) (gender : Option Gender)
    (email password : String) : User :=
  { id := w.newObjectId, fname := fname, lname := lname, age := age, gender := gender,
    email := email, password := password }

def createUser (w : World) (input : UserInput) (ctx : Context) : Run TokenResult :=
  let salt := w.genSaltSync 10
  let hash := w.hashSync input.password salt
  let errors : List FieldMessage := []
  let errors := if isEmpty input.fname then errors ++ [{ message := "نامی انتخاب کنید !" }] else errors
  let errors := if !w.isEmail input.email then errors ++ [{ message := "ایمیلی انتخاب کنید !" }] else errors
  let checks : List Call :=
    [.genSaltSync 10, .hashSync input.password salt, .isEmpty input.fname,
     .isEmail input.email]
  if errors.length > 0 then
    let error := { newError "invalid input" with data := some errors, code := .num 422 }
    { trace := checks, result := .threw error }
  else
    let user := newUser w input.fname input.lname input.age input.gender input.email hash
    { trace := checks ++ [.newUser user, .save user, .createToken user ctx.secret_token "1d"],
      result := .returned
        { token := createToken w user ctx.secret_token "1d", user := user } }

/-! ## The upload -/

/-- The local `dir` of `saveImage`. -/
def saveImageDir (date : JsDate) : String :=
  "/uploads/" ++ toString date.getFullYear ++ "/" ++ toString date.getMonth ++ "/"
    ++ toString date.getDay

/-- The local `filePath` of `saveImage`. -/
def saveImageFilePath (date : JsDate) (filename : String) : String :=
  saveImageDir date ++ "/" ++ filename

/-- The names declared at the top level of `server.js`. -/
def moduleBindings : List String :=
  ["express", "ApolloServer", "gql", "mongoose", "bcrypt", "validator", "fs", "path",
   "mkdirp", "User", "Article", "Comment", "app", "typeDefs", "resolvers", "saveImage",
   "startApolloServer"]

/-- The names Node.js binds in every module and the global objects. -/
def nodeBindings : List String :=
  ["require", "module", "exports", "__dirname", "__filename", "global", "globalThis",
   "process", "console", "Buffer", "Object", "Function", "Array", "String", "Number",
   "Boolean", "Symbol", "BigInt", "Math", "JSON", "Date", "RegExp", "Map", "Set",
   "WeakMap", "WeakSet", "Promise", "Proxy", "Reflect", "Error", "TypeError",
   "RangeError", "ReferenceError", "SyntaxError", "EvalError", "URIError", "setTimeout",
   "setInterval", "setImmediate", "clearTimeout", "clearInterval", "clearImmediate",
   "queueMicrotask", "undefined", "NaN", "Infinity", "parseInt", "parseFloat", "isNaN",
   "isFinite", "URL", "URLSearchParams", "TextEncoder", "TextDecoder"]

/-- The parameters and locals of `saveImage`. -/
def saveImageLocals : List String := ["stream", "filename", "date", "dir", "filePath"]

/-- Whether an identifier used in the body of `saveImage` resolves to a binding. -/
def isBound (ident : String) : Bool :=
  saveImageLocals.contains ident || moduleBindings.contains ident
    || nodeBindings.contains ident

/-- The function `saveImage`. The expression `new promise(...)` first evaluates
the identifier `promise`; the executor of lines 206 to 208 runs only if that
succeeds. -/
def saveImage (w : World) (stream : Transfer) (filename : String) : Run UploadReference :=
  let date := w.today
  let dir := saveImageDir date
  let made : List Call := [.newDate, .mkdirpSync w.dirname ("/imageUpload" ++ dir)]
  match w.mkdirpSync w.dirname ("/imageUpload" ++ dir) with
  | .error e => { trace := made, result := .threw e }
  | .ok _ =>
    let filePath := saveImageFilePath date filename
    if !isBound "promise" then
      { trace := made, result := .threw (referenceError "promise") }
    else
      let piped : List Call := made ++ [.pipe w.dirname ("/imageUpload/" ++ filePath)]
      match stream with
      | .error error => { trace := piped, result := .threw error }
      | .finish => { trace := piped, result := .returned { filePath := filePath } }
      | .stalls => { trace := piped, result := .pending }

/-- The arguments of `createArticle`; `image` is the awaited upload, or the error
the await raises. -/
structure CreateArticleArgs where
  title : String
  body : String
  image : Except JsError Upload

def createArticle (w : World) (args : CreateArticleArgs) (ctx : Context) : Run Article :=
  if !ctx.check.truthy then
    let error := newError "کاربر اعتبار لازم را ندارد"
    { trace := [], result := .threw error }
  else
    match args.image with
    | .error e => { trace := [.awaitImage], result := .threw e }
    | .ok upload =>
      let saved := saveImage w upload.transfer upload.filename
      let before : List Call := [.awaitImage, .createReadStream] ++ saved.trace
      match saved.result with
      | .threw e => { trace := before, result := .threw e }
      | .pending => { trace := before, result := .pending }
      | .returned ref =>
        let doc : ArticleDoc :=
          { user := ctx.check.id, title := args.title, body := args.body,
            image := ref.filePath }
        match w.articleCreate doc with
        | .error e => { trace := before ++ [.articleCreate doc], result := .threw e }
        | .ok article =>
          { trace := before ++ [.articleCreate doc], result := .returned article }

/-! ## The credential hasher -/

/-- Modelled from the spec: the contract of the Credential Hasher (sections 3, 4.1
and 8) that bcryptjs, a library outside the sources, is taken to meet: a password
verifies against its own digest, and the digest is never the plaintext. -/
structure CredentialHasherContract (w : World) : Prop where
  verify_hash : ∀ (plaintext : String) (rounds : Nat),
    w.compare plaintext (w.hashSync plaintext (w.genSaltSync rounds)) = true
  digest_ne_plaintext : ∀ (plaintext : String) (rounds : Nat),
    w.hashSync plaintext (w.genSaltSync rounds) ≠ plaintext

/-! ## Reading a run -/

/-- The error an evaluation threw, if it threw. -/
def Outcome.error? {α : Type} : Outcome α → Option JsError
  | .threw e => some e
  | _ => none

/-- The value an evaluation returned, if it returned. -/
def Outcome.value? {α : Type} : Outcome α → Option α
  | .returned v => some v
  | _ => none

/-- No call of the trace satisfies `p`. -/
def neverCalls (p : Call → Bool) (trace : List Call) : Bool :=
  trace.all (fun c => !p c)

/-! ## A concrete world -/

def sampleSalt : String := "$2a$10$N9qo8uLOickgx2ZMRZoMye"

def sampleUser : User :=
  { id := "u1", fname := "Ann", lname := "Lee", age := 30, gender := some .Female,
    email := "ann@b.com", password := sampleSalt ++ "letmein" }

/-- A world with one stored user, a toy salted digest (the salt followed by the
plaintext) and a toy signature. -/
def sampleWorld : World :=
  { paginate := fun page limit =>
      .ok { docs := [sampleUser], total := 1, limit := limit, page := page, pages := 1 }
    findOne := fun email => .ok (if email = "ann@b.com" then some sampleUser else none)
    findById := fun id => if id = "u1" then some sampleUser else none
    newObjectId := "u2"
    articleCreate := fun doc =>
      .ok { id := "art1", user := doc.user, title := doc.title, body := doc.body,
            image := doc.image }
    genSaltSync := fun _ => sampleSalt
    hashSync := fun password salt => salt ++ password
    compare := fun password hash => hash == sampleSalt ++ password
    isEmail := fun str => str.toList.contains '@'
    hmac := fun secret payload => secret ++ "|" ++ payload
    now := 1700000000
    today := { localDay := 19723 }
    dirname := "/srv/app"
    mkdirpSync := fun _ _ => .ok () }

/-- A context without a claim. -/
def anonymousContext : Context :=
  { check := .prim .undefined, secret_token := "*#@dadDAdCA21!!/?qwd109)_=qd1^" }

/-- A context whose claim is the stored user. -/
def sampleContext : Context :=
  { check := .doc sampleUser, secret_token := "*#@dadDAdCA21!!/?qwd109)_=qd1^" }

/-- An upload named `a.png` whose transfer finishes. -/
def sampleArticleArgs : CreateArticleArgs :=
  { title := "t", body := "b", image := .ok { filename := "a.png", transfer := .finish } }

/-- The registration of the scenario: email `a@b.com`, password `secret123`. -/
def sampleInput : UserInput :=
  { fname := "Ann", lname := "Lee", age := 30, gender := none, email := "a@b.com",
    password := "secret123" }

/-- The user `createUser` builds from `sampleInput` in `sampleWorld`. -/
def registeredUser : User :=
  { id := "u2", fname := "Ann", lname := "Lee", age := 30, gender := none,
    email := "a@b.com", password := sampleSalt ++ "secret123" }

/-! ## Theorems -/

theorem isBound_promise : isBound "promise" = false := by decide

/-- C1: without a claim (`check` falsy) `getAllUser` and `createArticle` throw at the
guard having called no collaborator (no `User.paginate`, no read of the upload, no
`saveImage`, no `Article.create`); with a claim both pass the guard and reach their
first call. -/
theorem gated_operations_fail_fast (w : World) (pageArgs : GetAllUserArgs)
    (articleArgs : CreateArticleArgs) (ctx : Context) :
    (ctx.check.truthy = false →
      (getAllUser w pageArgs ctx).result = .threw (newError "کاربر اعتبار لازم را ندارد")
      ∧ (getAllUser w pageArgs ctx).trace = []
      ∧ (createArticle w articleArgs ctx).result = .threw (newError "کاربر اعتبار لازم را ندارد")
      ∧ (createArticle w articleArgs ctx).trace = []
      ∧ neverCalls Call.isPaginate (getAllUser w pageArgs ctx).trace = true
      ∧ neverCalls Call.readsUpload (createArticle w articleArgs ctx).trace = true
      ∧ neverCalls Call.inSaveImage (createArticle w articleArgs ctx).trace = true
      ∧ neverCalls Call.isArticleCreate (createArticle w articleArgs ctx).trace = true)
    ∧ (ctx.check.truthy = true →
      (getAllUser w pageArgs ctx).trace
          = [.paginate (orDefault pageArgs.page 1) (orDefault pageArgs.limit 10)]
      ∧ (createArticle w articleArgs ctx).trace.head? = some .awaitImage) := by
  constructor
  · intro h
    simp [getAllUser, createArticle, h, neverCalls]
  · intro h
    constructor
    · simp only [getAllUser, h]
      cases w.paginate (orDefault pageArgs.page 1) (orDefault pageArgs.limit 10) <;> rfl
    · simp only [createArticle, h, Bool.not_true, Bool.false_eq_true, if_false]
      repeat' split
      all_goals rfl

theorem gated_operations_fail_fast_witness :
    ((getAllUser sampleWorld { page := none, limit := none } anonymousContext).trace = []
      ∧ (createArticle sampleWorld sampleArticleArgs anonymousContext).trace = [])
    ∧ (getAllUser sampleWorld { page := none, limit := none } sampleContext).trace
        = [.paginate 1 10] :=
  ⟨⟨((gated_operations_fail_fast sampleWorld { page := none, limit := none }
        sampleArticleArgs anonymousContext).1 (by decide)).2.1,
    ((gated_operations_fail_fast sampleWorld { page := none, limit := none }
        sampleArticleArgs anonymousContext).1 (by decide)).2.2.2.1⟩,
   ((gated_operations_fail_fast sampleWorld { page := none, limit := none }
        sampleArticleArgs sampleContext).2 (by decide)).1⟩

/-- C2: the error the guard of `getAllUser` and of `createArticle` throws carries no
`code`, so `formatError` gives it the default status 500, while the error `login`
throws for an unknown account is formatted with status 401. -/
theorem guard_error_formats_with_status_500 (w : World) (pageArgs : GetAllUserArgs)
    (articleArgs : CreateArticleArgs) (secret message : String) :
    formatError
        { message := message,
          originalError :=
            (getAllUser w pageArgs
              { check := .prim .undefined, secret_token := secret }).result.error? }
      = .response none (.num 500) (if message != "" then message else "error")
    ∧ formatError
        { message := message,
          originalError :=
            (createArticle w articleArgs
              { check := .prim .undefined, secret_token := secret }).result.error? }
      = .response none (.num 500) (if message != "" then message else "error")
    ∧ formatError
        { message := message,
          originalError :=
            (login sampleWorld { email := "nobody@b.com", password := "x" }
              { check := .prim .undefined, secret_token := secret }).result.error? }
      = .response none (.num 401) (if message != "" then message else "error") := by
  refine ⟨?_, ?_, ?_⟩
  · simp [getAllUser, Check.truthy, JsVal.truthy, Outcome.error?, formatError, newError,
      JsVal.or]
  · simp [createArticle, Check.truthy, JsVal.truthy, Outcome.error?, formatError, newError,
      JsVal.or]
  · have h : sampleWorld.findOne "nobody@b.com" = .ok none := by decide
    simp [login, h, Outcome.error?, formatError, newError, JsVal.or, JsVal.truthy]

/-- C3: `login` returns a token only if the store has a user with the email and
`bcrypt.compare` accepts the password; for an unknown email and for a rejected
password it throws one and the same error, with code 401, and `User.createToken`
is not called. -/
theorem login_token_only_for_valid_credentials (w : World) (args : LoginArgs)
    (ctx : Context) :
    (∀ r, (login w args ctx).result = .returned r →
      w.findOne args.email = .ok (some r.user)
      ∧ w.compare args.password r.user.password = true
      ∧ r.token = createToken w r.user ctx.secret_token "1d")
    ∧ (w.findOne args.email = .ok none →
      (login w args ctx).result
          = .threw { name := "Error", message := "اکانت موجود نمیباشد", code := .num 401, data := none }
      ∧ (login w args ctx).trace = [.findOne args.email]
      ∧ neverCalls Call.isCreateToken (login w args ctx).trace = true)
    ∧ (∀ user, w.findOne args.email = .ok (some user) →
        w.compare args.password user.password = false →
      (login w args ctx).result
          = .threw { name := "Error", message := "اکانت موجود نمیباشد", code := .num 401, data := none }
      ∧ (login w args ctx).trace
          = [.findOne args.email, .compare args.password user.password]
      ∧ neverCalls Call.isCreateToken (login w args ctx).trace = true) := by
  refine ⟨?_, ?_, ?_⟩
  · intro r hr
    unfold login at hr
    cases hfind : w.findOne args.email with
    | error e => simp [hfind] at hr
    | ok found =>
      cases found with
      | none => simp [hfind] at hr
      | some user =>
        simp only [hfind] at hr
        cases hcmp : w.compare args.password user.password with
        | false => simp [hcmp] at hr
        | true =>
          simp [hcmp] at hr
          subst hr
          simp [hcmp]
  · intro h
    simp [login, h, newError, neverCalls, Call.isCreateToken]
  · intro user h hcmp
    simp [login, h, hcmp, newError, neverCalls, Call.isCreateToken]

theorem login_token_only_for_valid_credentials_witness :
    ((login sampleWorld { email := "nobody@b.com", password := "letmein" }
        sampleContext).trace = [.findOne "nobody@b.com"])
    ∧ ((login sampleWorld { email := "ann@b.com", password := "wrong" }
        sampleContext).trace
        = [.findOne "ann@b.com", .compare "wrong" sampleUser.password])
    ∧ sampleWorld.compare "letmein" sampleUser.password = true :=
  ⟨((login_token_only_for_valid_credentials sampleWorld
        { email := "nobody@b.com", password := "letmein" } sampleContext).2.1
        (by decide)).2.1,
   ((login_token_only_for_valid_credentials sampleWorld
        { email := "ann@b.com", password := "wrong" } sampleContext).2.2 sampleUser
        (by decide) (by decide)).2.1,
   ((login_token_only_for_valid_credentials sampleWorld
        { email := "ann@b.com", password := "letmein" } sampleContext).1
        { token := createToken sampleWorld sampleUser sampleContext.secret_token "1d",
          user := sampleUser } (by decide)).2.1⟩

theorem isEmpty_eq_decide (str : String) : isEmpty str = decide (str = "") := by
  cases str with
  | mk data =>
    cases data with
    | nil => rfl
    | cons c cs =>
      have h : (String.mk (c :: cs)) ≠ "" := by
        intro h
        have hlen := congrArg String.length h
        simp [String.length] at hlen
      simp [isEmpty, String.length, h]

/-- C4: `createUser` throws an error with code 422 exactly when `fname` is empty or
`email` is not an email address; its `data` holds one message per failed check, the
`fname` message before the `email` message, and then no user is built or saved and
no token is made. -/
theorem createUser_validation_error (w : World) (input : UserInput) (ctx : Context) :
    ((∃ e, (createUser w input ctx).result = .threw e ∧ e.code = .num 422)
      ↔ (input.fname = "" ∨ w.isEmail input.email = false))
    ∧ ((input.fname = "" ∨ w.isEmail input.email = false) →
      (createUser w input ctx).result
          = .threw
              { name := "Error", message := "invalid input", code := .num 422,
                data := some
                  ((if input.fname = "" then [{ message := "نامی انتخاب کنید !" }] else [])
                    ++ (if w.isEmail input.email = false then [{ message := "ایمیلی انتخاب کنید !" }]
                        else [])) }
      ∧ (createUser w input ctx).trace
          = [.genSaltSync 10, .hashSync input.password (w.genSaltSync 10),
             .isEmpty input.fname, .isEmail input.email]
      ∧ neverCalls (fun c => c.isNewUser || c.isSave || c.isCreateToken)
          (createUser w input ctx).trace = true) := by
  by_cases hf : input.fname = "" <;> cases hm : w.isEmail input.email <;>
    simp [createUser, isEmpty_eq_decide, hf, hm, newError, neverCalls, Call.isNewUser, Call.isSave,
      Call.isCreateToken]

theorem createUser_validation_error_witness :
    (createUser sampleWorld
        { fname := "", lname := "Lee", age := 30, gender := none, email := "nobody",
          password := "secret123" } anonymousContext).result
      = .threw
          { name := "Error", message := "invalid input", code := .num 422,
            data := some [{ message := "نامی انتخاب کنید !" }, { message := "ایمیلی انتخاب کنید !" }] } :=
  ((createUser_validation_error sampleWorld
      { fname := "", lname := "Lee", age := 30, gender := none, email := "nobody",
        password := "secret123" } anonymousContext).2 (Or.inl rfl)).1

/-- C5: `formatError` returns an error without `originalError` unchanged; otherwise
it returns `data` of the original error, as status its `code` or 500 when the code is
falsy (`undefined`, `null`, `false`, `0`, the empty string), and the message of the
error or `'error'` when that is empty. Code 401 gives status 401, and code 422 with a
`data` array gives status 422 with the same array. -/
theorem formatError_mapping (message : String) (originalError : JsError)
    (data : List FieldMessage) :
    formatError { message := message, originalError := none }
      = .unchanged { message := message, originalError := none }
    ∧ formatError { message := message, originalError := some originalError }
      = .response originalError.data
          (if originalError.code.truthy then originalError.code else .num 500)
          (if message = "" then "error" else message)
    ∧ (originalError.code.truthy = false
        ↔ originalError.code ∈
            [JsVal.undefined, JsVal.null, JsVal.bool false, JsVal.num 0, JsVal.str ""])
    ∧ formatError
        { message := message, originalError := some { originalError with code := .num 401 } }
      = .response originalError.data (.num 401) (if message = "" then "error" else message)
    ∧ formatError
        { message := message,
          originalError := some { originalError with code := .num 422, data := some data } }
      = .response (some data) (.num 422) (if message = "" then "error" else message) := by
  refine ⟨rfl, ?_, ?_, ?_, ?_⟩
  · by_cases hm : message = "" <;> simp [formatError, JsVal.or, hm]
  · cases originalError.code <;> simp [JsVal.truthy]
  · by_cases hm : message = "" <;> simp [formatError, JsVal.or, JsVal.truthy, hm]
  · by_cases hm : message = "" <;> simp [formatError, JsVal.or, JsVal.truthy, hm]

/-- The path is a function of the year, the month index, the weekday index and the
file name. -/
theorem saveImageFilePath_eq (date : JsDate) (filename : String) :
    saveImageFilePath date filename
      = "/uploads/" ++ toString date.getFullYear ++ "/" ++ toString date.getMonth ++ "/"
          ++ toString date.getDay ++ "/" ++ filename := rfl

/-- C6: the path `saveImage` derives is
`/uploads/<getFullYear>/<getMonth>/<getDay>/<filename>`, so two upload dates with
the same year, month and weekday but different days of the month give the same
directory, the same path for a file name, and the same calls of `saveImage`. -/
theorem saveImage_path_ignores_day_of_month (w : World) (stream : Transfer)
    (date₁ date₂ : JsDate) (filename : String)
    (hyear : date₁.getFullYear = date₂.getFullYear)
    (hmonth : date₁.getMonth = date₂.getMonth)
    (hweekday : date₁.getDay = date₂.getDay)
    ( _hdate : date₁.getDate ≠ date₂.getDate) :
    saveImageFilePath date₁ filename
      = "/uploads/" ++ toString date₁.getFullYear ++ "/" ++ toString date₁.getMonth ++ "/"
          ++ toString date₁.getDay ++ "/" ++ filename
    ∧ saveImageFilePath date₁ filename = saveImageFilePath date₂ filename
    ∧ (saveImage { w with today := date₁ } stream filename).trace
        = [.newDate, .mkdirpSync w.dirname ("/imageUpload" ++ saveImageDir date₂)] := by
  have hdir : saveImageDir date₁ = saveImageDir date₂ := by
    simp only [saveImageDir, hyear, hmonth, hweekday]
  refine ⟨rfl, ?_, ?_⟩
  · simp only [saveImageFilePath, hdir]
  · simp only [saveImage, hdir, isBound_promise]
    split <;> rfl

theorem saveImage_path_ignores_day_of_month_witness :
    saveImageFilePath { localDay := 19723 } "a.png" = "/uploads/2024/0/1/a.png"
    ∧ saveImageFilePath { localDay := 19730 } "a.png" = "/uploads/2024/0/1/a.png"
    ∧ JsDate.getDate { localDay := 19723 } = 1
    ∧ JsDate.getDate { localDay := 19730 } = 8 :=
  ⟨by decide,
   (saveImage_path_ignores_day_of_month sampleWorld .finish { localDay := 19723 }
      { localDay := 19730 } "a.png" (by decide) (by decide) (by decide) (by decide)).2.1
      ▸ (by decide),
   by decide, by decide⟩

/-- Whatever the stream does, `saveImage` ends by throwing: a failed `mkdirp.sync`,
or the unbound identifier `promise`. -/
theorem saveImage_throws (w : World) (stream : Transfer) (filename : String) :
    ∃ e, (saveImage w stream filename).result = .threw e
      ∧ (saveImage w stream filename).trace
          = [.newDate, .mkdirpSync w.dirname ("/imageUpload" ++ saveImageDir w.today)] := by
  simp only [saveImage, isBound_promise]
  split
  · exact ⟨_, rfl, rfl⟩
  · exact ⟨_, rfl, rfl⟩

/-- C7: an authenticated `createArticle` whose upload finishes without error does
not create the article: `promise` is unbound in `saveImage`, which throws a
`ReferenceError` after making the directory, and `Article.create` is not called. -/
theorem createArticle_finished_upload_throws :
    isBound "promise" = false
    ∧ (saveImage sampleWorld .finish "a.png").result = .threw (referenceError "promise")
    ∧ (createArticle sampleWorld sampleArticleArgs sampleContext).result
        = .threw (referenceError "promise")
    ∧ (createArticle sampleWorld sampleArticleArgs sampleContext).trace
        = [.awaitImage, .createReadStream, .newDate,
           .mkdirpSync "/srv/app" "/imageUpload/uploads/2024/0/1"]
    ∧ neverCalls Call.isArticleCreate
        (createArticle sampleWorld sampleArticleArgs sampleContext).trace = true := by
  decide

/-- C8: when the upload of a `createArticle` call fails (the stream errors, or
`saveImage` throws), `saveImage` yields no upload reference, `createArticle` throws,
and `Article.create` is not called. -/
theorem failed_upload_creates_no_article (w : World) (args : CreateArticleArgs)
    (ctx : Context) (upload : Upload) (himage : args.image = .ok upload)
    ( _hfail : (∃ e, upload.transfer = .error e)
      ∨ (∃ e, (saveImage w upload.transfer upload.filename).result = .threw e)) :
    (saveImage w upload.transfer upload.filename).result.value? = none
    ∧ (∃ e, (createArticle w args ctx).result = .threw e)
    ∧ (createArticle w args ctx).result.value? = none
    ∧ neverCalls Call.isArticleCreate (createArticle w args ctx).trace = true := by
  obtain ⟨e, hres, htrace⟩ := saveImage_throws w upload.transfer upload.filename
  refine ⟨by simp [hres, Outcome.value?], ?_⟩
  cases hc : ctx.check.truthy with
  | false =>
    simp [createArticle, hc, Outcome.value?, neverCalls]
  | true =>
    simp [createArticle, hc, himage, hres, htrace, Outcome.value?, neverCalls,
      Call.isArticleCreate]

theorem failed_upload_creates_no_article_witness :
    ∃ e, (createArticle sampleWorld
        { title := "t", body := "b",
          image := .ok { filename := "a.png",
                         transfer := .error (newError "socket hang up") } }
        sampleContext).result = .threw e :=
  (failed_upload_creates_no_article sampleWorld
      { title := "t", body := "b",
        image := .ok { filename := "a.png",
                       transfer := .error (newError "socket hang up") } }
      sampleContext { filename := "a.png", transfer := .error (newError "socket hang up") }
      rfl (Or.inl ⟨_, rfl⟩)).2.1

/-- What a returning `createUser` built and called. -/
theorem createUser_returned (w : World) (input : UserInput) (ctx : Context)
    (r : TokenResult) (hr : (createUser w input ctx).result = .returned r) :
    r.user = newUser w input.fname input.lname input.age input.gender input.email
        (w.hashSync input.password (w.genSaltSync 10))
    ∧ r.token = createToken w r.user ctx.secret_token "1d"
    ∧ (createUser w input ctx).trace
        = [.genSaltSync 10, .hashSync input.password (w.genSaltSync 10),
           .isEmpty input.fname, .isEmail input.email, .newUser r.user, .save r.user,
           .createToken r.user ctx.secret_token "1d"] := by
  by_cases hf : input.fname = "" <;> cases hm : w.isEmail input.email <;>
    simp [createUser, isEmpty_eq_decide, hf, hm] at hr ⊢
  subst hr
  simp

/-- What a returning `login` found and called. -/
theorem login_returned (w : World) (args : LoginArgs) (ctx : Context)
    (r : TokenResult) (hr : (login w args ctx).result = .returned r) :
    w.findOne args.email = .ok (some r.user)
    ∧ w.compare args.password r.user.password = true
    ∧ r.token = createToken w r.user ctx.secret_token "1d"
    ∧ (login w args ctx).trace
        = [.findOne args.email, .compare args.password r.user.password,
           .createToken r.user ctx.secret_token "1d"] := by
  unfold login at hr ⊢
  cases hfind : w.findOne args.email with
  | error e => simp [hfind] at hr
  | ok found =>
    cases found with
    | none => simp [hfind] at hr
    | some user =>
      simp only [hfind] at hr ⊢
      cases hcmp : w.compare args.password user.password with
      | false => simp [hcmp] at hr
      | true =>
        simp [hcmp] at hr
        subst hr
        simp [hcmp]

/-- A token issued by `createToken` verifies, under the secret it was issued with
and at any time before it expires, to the id of the user it was issued for. -/
theorem verify_createToken (w : World) (user : User) (secret ttl : String) (t : Nat)
    (ht : t < w.now + 86400) :
    TokenCodec.verify w.hmac (createToken w user secret ttl) secret t = .present user.id := by
  have ht2 : t < w.now + fixedTtl := ht
  simp [TokenCodec.verify, createToken, TokenCodec.issue, ttlSeconds, ht2]

/-- C9: a token returned by `createUser` or `login` was made by `User.createToken`
for the returned user, with the label `'1d'` and the secret that `context` passes to
`User.checkToken`; it expires one day after issuance, and verifying it under that
secret at the time of issuance, or at any time before it expires, yields the user's
id. -/
theorem issued_token_verifies (w : World) (req : Request) (input : UserInput)
    (loginArgs : LoginArgs) (ctx : Context)
    (hctx : (context w req).result = .returned ctx) :
    (context w req).trace = [.checkToken req "*#@dadDAdCA21!!/?qwd109)_=qd1^"]
    ∧ ctx.secret_token = "*#@dadDAdCA21!!/?qwd109)_=qd1^"
    ∧ (∀ r, (createUser w input ctx).result = .returned r →
        Call.createToken r.user "*#@dadDAdCA21!!/?qwd109)_=qd1^" "1d"
            ∈ (createUser w input ctx).trace
        ∧ r.token = createToken w r.user "*#@dadDAdCA21!!/?qwd109)_=qd1^" "1d"
        ∧ r.token.issued_at = w.now
        ∧ r.token.expires_at = w.now + 86400
        ∧ ∀ t, t < w.now + 86400 →
            TokenCodec.verify w.hmac r.token "*#@dadDAdCA21!!/?qwd109)_=qd1^" t
              = .present r.user.id)
    ∧ (∀ r, (login w loginArgs ctx).result = .returned r →
        Call.createToken r.user "*#@dadDAdCA21!!/?qwd109)_=qd1^" "1d"
            ∈ (login w loginArgs ctx).trace
        ∧ r.token = createToken w r.user "*#@dadDAdCA21!!/?qwd109)_=qd1^" "1d"
        ∧ r.token.issued_at = w.now
        ∧ r.token.expires_at = w.now + 86400
        ∧ ∀ t, t < w.now + 86400 →
            TokenCodec.verify w.hmac r.token "*#@dadDAdCA21!!/?qwd109)_=qd1^" t
              = .present r.user.id) := by
  have hsecret : ctx.secret_token = "*#@dadDAdCA21!!/?qwd109)_=qd1^" := by
    simp only [context, Outcome.returned.injEq] at hctx
    rw [← hctx]
  refine ⟨rfl, hsecret, ?_, ?_⟩
  · intro r hr
    obtain ⟨huser, htoken, htrace⟩ := createUser_returned w input ctx r hr
    rw [hsecret] at htoken htrace
    refine ⟨?_, htoken, ?_, ?_, ?_⟩
    · rw [htrace]
      simp
    · rw [htoken]
      rfl
    · rw [htoken]
      rfl
    · intro t ht
      rw [htoken]
      exact verify_createToken w _ _ _ t ht
  · intro r hr
    obtain ⟨_, _, htoken, htrace⟩ := login_returned w loginArgs ctx r hr
    rw [hsecret] at htoken htrace
    refine ⟨?_, htoken, ?_, ?_, ?_⟩
    · rw [htrace]
      simp
    · rw [htoken]
      rfl
    · rw [htoken]
      rfl
    · intro t ht
      rw [htoken]
      exact verify_createToken w _ _ _ t ht

theorem issued_token_verifies_witness :
    (createUser sampleWorld sampleInput anonymousContext).result
      = .returned
          { token := createToken sampleWorld registeredUser
              "*#@dadDAdCA21!!/?qwd109)_=qd1^" "1d",
            user := registeredUser }
    ∧ TokenCodec.verify sampleWorld.hmac
        (createToken sampleWorld registeredUser "*#@dadDAdCA21!!/?qwd109)_=qd1^" "1d")
        "*#@dadDAdCA21!!/?qwd109)_=qd1^" 1700000000
      = .present "u2" :=
  ⟨by decide,
   ((issued_token_verifies sampleWorld { authorization := none } sampleInput
      { email := "ann@b.com", password := "letmein" } anonymousContext (by decide)).2.2.1
      { token := createToken sampleWorld registeredUser
          "*#@dadDAdCA21!!/?qwd109)_=qd1^" "1d",
        user := registeredUser } (by decide)).2.2.2.2 1700000000 (by decide)⟩

/-- The toy digest of `sampleWorld` meets the contract of the Credential Hasher. -/
theorem sampleWorld_contract : CredentialHasherContract sampleWorld where
  verify_hash := by
    intro plaintext rounds
    simp [sampleWorld]
  digest_ne_plaintext := by
    intro plaintext rounds h
    have hlen := congrArg String.length h
    simp [sampleWorld, sampleSalt, String.length_append] at hlen
    exact absurd hlen (by decide)

/-- C10: for a valid registration input `createUser` returns the user it built and
saved, whose password field is `bcrypt.hashSync(p, bcrypt.genSaltSync(10))`; under
the contract of the Credential Hasher that digest is not the plaintext and
`bcrypt.compare(p, digest)` accepts it, so `login` with the same email and password
returns a token once the store holds the record; every other field is the input's. -/
theorem createUser_stores_digest (w : World) (input : UserInput) (ctx : Context)
    (hcontract : CredentialHasherContract w) (hfname : input.fname ≠ "")
    (hemail : w.isEmail input.email = true) :
    ∃ user : User,
      (createUser w input ctx).result
          = .returned { token := createToken w user ctx.secret_token "1d", user := user }
      ∧ Call.newUser user ∈ (createUser w input ctx).trace
      ∧ Call.save user ∈ (createUser w input ctx).trace
      ∧ user.password = w.hashSync input.password (w.genSaltSync 10)
      ∧ user.password ≠ input.password
      ∧ w.compare input.password user.password = true
      ∧ user.fname = input.fname ∧ user.lname = input.lname ∧ user.age = input.age
      ∧ user.gender = input.gender ∧ user.email = input.email
      ∧ (w.findOne input.email = .ok (some user) →
          (login w { email := input.email, password := input.password } ctx).result
            = .returned
                { token := createToken w user ctx.secret_token "1d", user := user }) := by
  refine ⟨newUser w input.fname input.lname input.age input.gender input.email
      (w.hashSync input.password (w.genSaltSync 10)), ?_, ?_, ?_, rfl, ?_, ?_, rfl, rfl, rfl,
      rfl, rfl, ?_⟩
  · simp [createUser, isEmpty_eq_decide, hfname, hemail]
  · simp [createUser, isEmpty_eq_decide, hfname, hemail]
  · simp [createUser, isEmpty_eq_decide, hfname, hemail]
  · exact hcontract.digest_ne_plaintext input.password 10
  · exact hcontract.verify_hash input.password 10
  · intro hfind
    have hcmp := hcontract.verify_hash input.password 10
    simp [login, hfind, newUser, hcmp]

theorem createUser_stores_digest_witness :
    ∃ user : User,
      (createUser sampleWorld sampleInput anonymousContext).result
          = .returned
              { token := createToken sampleWorld user anonymousContext.secret_token "1d",
                user := user }
      ∧ user.password = sampleWorld.hashSync "secret123" (sampleWorld.genSaltSync 10)
      ∧ user.password ≠ "secret123"
      ∧ sampleWorld.compare "secret123" user.password = true :=
  match createUser_stores_digest sampleWorld sampleInput anonymousContext
      sampleWorld_contract (by decide) (by decide) with
  | ⟨user, hresult, _, _, hpassword, hne, hcompare, _⟩ =>
    ⟨user, hresult, hpassword, hne, hcompare⟩

end PostGraphql
